import Mathlib

set_option maxRecDepth 100000
set_option maxHeartbeats 2000000

/-!
Shallow embedding of the minh-kha-zen/wohnungssuche repository (two Python
source files, `src/streamlit_app.py` and `src/main.py`).

The verified core is the prompt construction: `extract_listing_info`'s
extraction prompt and `generate_reply`'s reply prompt.  Python strings are
modelled as Lean `String`; Python `str.strip()` is `pyStrip` (both sources
only ever strip ASCII space and newline), `str.upper()` is `pyUpper`
(ASCII labels only), the slice `s[:15000]` is `pySlice 15000`, and the
f-string interpolation `f"{max_words}"` of a Python `int` is `toString`
on `Int`.  `os.linesep` is `"\n"` (the Linux deployment value).  Effectful
boundaries (Firecrawl scrape, OpenAI completion) are passed in as explicit
string arguments; fallible code returns `Except String`.
-/

namespace Wohnungssuche

/-- Model of Python `str.strip()`: drop whitespace from both ends. -/
def pyStrip (s : String) : String :=
  ⟨List.rdropWhile (fun c => c.isWhitespace) (List.dropWhile (fun c => c.isWhitespace) s.data)⟩

/-- Model of Python `str.upper()` for the ASCII labels used here. -/
def pyUpper (s : String) : String :=
  ⟨s.data.map Char.toUpper⟩

/-- Model of the Python slice `s[:n]` (by code point, as Python slices). -/
def pySlice (n : Nat) (s : String) : String :=
  ⟨s.data.take n⟩

/-- Substring containment: `pat` occurs contiguously inside `hay`. -/
def strIncl (hay pat : String) : Prop :=
  pat.data <:+: hay.data

/-- Tail-recursive prefix test (evaluation-friendly decision procedure). -/
def prefOf : List Char → List Char → Bool
  | [], _ => true
  | _ :: _, [] => false
  | a :: as, b :: bs => a == b && prefOf as bs

/-- Tail-recursive contiguous-sublist test. -/
def subOf (p : List Char) : List Char → Bool
  | [] => p.isEmpty
  | b :: bs => prefOf p (b :: bs) || subOf p bs

instance (hay pat : String) : Decidable (strIncl hay pat) :=
  decidable_of_iff (subOf pat.data hay.data = true) (by
    have hpref : ∀ (p l : List Char), prefOf p l = true ↔ p <+: l := by
      intro p
      induction p with
      | nil =>
        intro l
        simp [prefOf]
      | cons a as ih =>
        intro l
        cases l with
        | nil => simp [prefOf]
        | cons b bs =>
          rw [prefOf, Bool.and_eq_true, beq_iff_eq, List.cons_prefix_cons, ih]
    have hsub : ∀ (l p : List Char), subOf p l = true ↔ p <:+: l := by
      intro l
      induction l with
      | nil =>
        intro p
        rw [subOf, List.isEmpty_iff]
        constructor
        · intro h
          subst h
          exact List.infix_rfl
        · intro h
          exact List.eq_nil_of_infix_nil h
      | cons b bs ih =>
        intro p
        rw [subOf, Bool.or_eq_true, hpref, ih, List.infix_cons_iff]
    exact hsub hay.data pat.data)

/-- The structured instruction payload handed to the text-generation boundary
(`messages=[{role: system, ...}, {role: user, ...}]` in both sources). -/
structure PromptSpec where
  system : String
  user : String
deriving DecidableEq

/-- The dict `{url, raw_markdown, extracted_info}` returned by
`extract_listing_info` and consumed by `generate_reply`. -/
structure ListingInfo where
  url : String
  raw_markdown : String
  extracted_info : String
deriving DecidableEq

namespace App

/-! Embedding of `src/streamlit_app.py`. -/

/-- APPLICANT_INFO_COUPLE (streamlit_app.py lines 15-20), a triple-quoted
literal with trailing spaces inside the lines, then `.strip()`. -/
def APPLICANT_INFO_COUPLE : String :=
  pyStrip "\nWir sind Nils (26) und Minh-Kha (30). Gemeinsam verfügen wir über ein gesichertes \nmonatliches Nettoeinkommen von ca. 9.000 € – beide ruhige, zuverlässige, Nichtraucher \nohne Haustiere. Nils arbeitet als Unternehmensberater bei Bain, Minh-Kha startet im \nFebruar bei Celonis und zieht dafür aus Zürich nach München.\n"

/-- APPLICANT_INFO_SINGLE (streamlit_app.py lines 22-26). -/
def APPLICANT_INFO_SINGLE : String :=
  pyStrip "\nIch bin Minh-Kha (30), starte ab Februar bei Celonis und ziehe dafür aus Zürich nach München. \nDarüber hinaus verfüge ich über ein gesichertes monatliches Nettoeinkommen von ca. 4.500 € und \nbin ein ruhiger, zuverlässiger Nichtraucher ohne Haustiere.\n"

/-- WEBSITE_INFO (streamlit_app.py lines 28-33). -/
def WEBSITE_INFO : String :=
  pyStrip "\nUm Ihnen einen schnellen Überblick zu ermöglichen, haben wir eine kleine Website mit allen Unterlagen zu uns eingerichtet:\nhttps://nils-und-minhkha.lovable.app\n\nPasswort für den Dokumentenbereich: NiMi!2026\n"

/-- WEBSITE_INFO_SINGLE (streamlit_app.py lines 35-40). -/
def WEBSITE_INFO_SINGLE : String :=
  pyStrip "\nUm Ihnen einen schnellen Überblick zu ermöglichen, habe ich eine kleine Website mit allen Unterlagen zu mir eingerichtet:\nhttps://nils-und-minhkha.lovable.app\n\nPasswort für den Dokumentenbereich: NiMi!2026\n"

/-- IDEAL_MOVE_IN (streamlit_app.py line 42). -/
def IDEAL_MOVE_IN : String := "Februar 2026"

/-- The `sign_off` local for the single profile (lines 156-159): a raw
triple-quoted literal, indentation and trailing spaces kept, not stripped. -/
def SIGN_OFF_SINGLE : String := "\n        Viele Grüße, \n        Minh-Kha\n        "

/-- The `sign_off` local for the couple profile (lines 165-168). -/
def SIGN_OFF_COUPLE : String := "\n        Viele Grüße, \n        Nils & Minh-Kha\n        "

/-- The `applicant_info` local of `generate_reply` (lines 152-162). -/
def applicantInfoOf (applicant_profile : String) : String :=
  if applicant_profile = "single" then APPLICANT_INFO_SINGLE else APPLICANT_INFO_COUPLE

/-- The `website_section` local of `generate_reply` (lines 154 and 163). -/
def websiteSectionOf (applicant_profile : String) (include_website : Bool) : String :=
  if applicant_profile = "single" then
    (if include_website then WEBSITE_INFO_SINGLE else "")
  else
    (if include_website then WEBSITE_INFO else "")

/-- The `about_label` local of `generate_reply` (lines 155 and 164). -/
def aboutLabelOf (applicant_profile : String) : String :=
  if applicant_profile = "single" then "About me" else "About us"

/-- The `sign_off` local of `generate_reply` (lines 156 and 165). -/
def signOffOf (applicant_profile : String) : String :=
  if applicant_profile = "single" then SIGN_OFF_SINGLE else SIGN_OFF_COUPLE

/-- The `pronoun_de` local of `generate_reply` (lines 160 and 169). -/
def pronounOf (applicant_profile : String) : String :=
  if applicant_profile = "single" then "ich" else "wir"

/-- The EARLIER branch line of the MOVING-IN DATE RULES (line 191). -/
def ruleEarlier (pronoun_de : String) : String :=
  "- If the listing's move-in date is EARLIER than " ++ IDEAL_MOVE_IN
    ++ ": mention that " ++ pronoun_de
    ++ " flexibel bezüglich des früheren Datums bin/sind (grammatically correct)"

/-- The LATER branch line of the MOVING-IN DATE RULES (line 192). -/
def ruleLater (pronoun_de : String) : String :=
  "- If the listing's move-in date is LATER than " ++ IDEAL_MOVE_IN
    ++ ": mention that das genannte Datum für " ++ pronoun_de ++ " perfekt passt"

/-- The NO-date branch line of the MOVING-IN DATE RULES (line 193). -/
def ruleAbsent : String :=
  "- If there is NO move-in date mentioned: mention that ideally we would move in around "
    ++ IDEAL_MOVE_IN

/-- The header of the optional custom-instructions block (line 173),
up to but excluding its final newline. -/
def ADD_HEADER_MAIN : String :=
  "\n\nADDITIONAL USER INSTRUCTIONS (optional; follow these as long as they don't violate the structure/rules above):"

/-- The `additional_instructions` local of `generate_reply` (lines 171-176):
empty when the stripped custom prompt is empty, otherwise the header plus the
stripped custom prompt. -/
def additionalOf (custom_prompt : Option String) : String :=
  let custom := pyStrip (custom_prompt.getD "")
  if custom = "" then "" else ADD_HEADER_MAIN ++ "\n" ++ custom

/-- The first literal of the reply template (lines 179-183), up to the
interpolation of `pronoun_de`; the f-string's leading newline is kept outside
(it is consumed by the final `.strip()`). -/
def TPL_HEAD : String :=
  "Based on the following apartment listing, write a short application message in German.\n\nSTRICT STRUCTURE (follow this order):\n1. Salutation (e.g., \"Guten Tag,\" or \"Guten Morgen,\")\n2. Why we like this specific listing (1-2 sentences, mention specific features from the listing; adapt to "

/-- The reply template (lines 178-212) from its start up to the interpolation
of `max_words`; the trailing `"Maximum "` is kept as a separate literal so the
`Maximum {max_words} words total` line can be addressed as a unit.
`os.linesep` in the WEBSITE SECTION line is `"\n"`. -/
def partA_front (applicant_profile : String) (include_website : Bool) : String :=
  TPL_HEAD
    ++ pronounOf applicant_profile
    ++ ")\n3. "
    ++ aboutLabelOf applicant_profile
    ++ " (use the provided info, keep it brief)\n4. Administrative stuff (moving-in date handling - see rules below)\n5. "
    ++ (if include_website then "Our website paragraph (include exactly as provided)"
        else "Skip this section")
    ++ "\n6. Closing (express hope to hear back and see the apartment, sign off with \""
    ++ signOffOf applicant_profile
    ++ "\")\n\nMOVING-IN DATE RULES (very important):\n- Our ideal move-in date is "
    ++ IDEAL_MOVE_IN ++ "\n"
    ++ ruleEarlier (pronounOf applicant_profile) ++ "\n"
    ++ ruleLater (pronounOf applicant_profile) ++ "\n"
    ++ ruleAbsent ++ "\n\n"
    ++ pyUpper (aboutLabelOf applicant_profile)
    ++ " (use this info):\n"
    ++ applicantInfoOf applicant_profile
    ++ "\n\n"
    ++ (if include_website then
          "WEBSITE SECTION (include this exactly if the listing mentions required documents like SCHUFA, income proof, etc.):\n"
            ++ websiteSectionOf applicant_profile include_website
        else "")
    ++ "\n\nSTYLE GUIDELINES:\n- "

/-- The reply template up to (and including) `"Maximum "`. -/
def partA (applicant_profile : String) (include_website : Bool) : String :=
  partA_front applicant_profile include_website ++ "Maximum "

/-- The reply template between `max_words` and the extracted listing text,
after its leading `" words total"` (kept separate, see `partA_front`). -/
def partB_rest : String :=
  "\n- Warm but professional tone\n- No subject line needed\n- Don't be overly formal, keep it natural\n- Reference specific features from the listing to show genuine interest\n\nLISTING INFORMATION:"

/-- The reply template between `max_words` and the extracted listing text,
up to but excluding the newline that precedes the listing text. -/
def partB : String := " words total" ++ partB_rest

/-- The closing line of the reply template, after the newline that follows
`additional_instructions` (its final newline is consumed by `.strip()`). -/
def PART_TAIL : String := "\nNow write the message:"

/-- The `reply_prompt` f-string of `generate_reply` (lines 178-212), with its
final `.strip()`.  The concatenation reproduces the f-string text literally;
the named parts only give addresses to sub-segments. -/
def reply_user (listing_info : ListingInfo) (max_words : Int) (include_website : Bool)
    (applicant_profile : String) (custom_prompt : Option String) : String :=
  pyStrip ("\n" ++ partA applicant_profile include_website ++ toString max_words
    ++ partB ++ "\n" ++ listing_info.extracted_info ++ "\n"
    ++ additionalOf custom_prompt ++ "\n" ++ PART_TAIL ++ "\n")

/-- The system message of the reply call (lines 219-221). -/
def REPLY_SYSTEM : String :=
  "You are an expert at writing German apartment application letters.\nWrite concise, warm, and professional messages. Follow the structure exactly as specified.\nAlways use the provided sign-off exactly. Never use \"Sie-Form\" excessively - keep it natural."

/-- `generate_reply`'s validation and prompt construction (lines 139-212):
rejects an unknown `applicant_profile` (line 149-150) and otherwise builds the
PromptSpec handed to the generation call.  `max_words` is not validated
anywhere in the source. -/
def generate_reply (listing_info : ListingInfo) (max_words : Int) (include_website : Bool)
    (applicant_profile : String) (custom_prompt : Option String) :
    Except String PromptSpec :=
  if ¬(applicant_profile = "couple" ∨ applicant_profile = "single") then
    .error "Invalid applicant_profile. Use 'couple' or 'single'."
  else
    .ok ⟨REPLY_SYSTEM,
         reply_user listing_info max_words include_website applicant_profile custom_prompt⟩

/-- The system message of the extraction call (line 118). -/
def EXTRACTION_SYSTEM : String :=
  "You are an expert at analyzing German real estate listings. Extract key information accurately and concisely in German."

/-- The `extraction_prompt` literal (lines 95-111), `.strip()` applied. -/
def EXTRACTION_PROMPT : String :=
  pyStrip "\nAnalyze this immobilienscout24 listing and extract the following information in a structured format:\n\n- Title/Address\n- Rent (Kaltmiete and Warmmiete if available)\n- Size (square meters)\n- Rooms\n- Floor/Etage\n- Available from (Bezugsfrei ab)\n- Deposit (Kaution)\n- Location/District\n- Key features and amenities\n- Landlord/Contact info if available\n- Any requirements mentioned (income proof, etc.)\n\nListing content:\n"

/-- The user content of the extraction call (line 122):
`extraction_prompt + "\n\n" + markdown_content[:15000]`. -/
def extraction_user (markdown_content : String) : String :=
  EXTRACTION_PROMPT ++ "\n\n" ++ pySlice 15000 markdown_content

/-- The PromptSpec of the extraction call (lines 113-126). -/
def extraction_spec (markdown_content : String) : PromptSpec :=
  ⟨EXTRACTION_SYSTEM, extraction_user markdown_content⟩

/-- `extract_listing_info`'s checks and result (lines 77-136), with the
scraped markdown and the model's returned text passed in explicitly:
empty markdown fails (lines 92-93), the model output is stripped and an
empty result fails (lines 128-130), otherwise the dict is returned. -/
def extract_listing_info (url markdown_content model_output : String) :
    Except String ListingInfo :=
  if markdown_content = "" then
    .error "Could not extract content from the listing (no markdown returned)."
  else
    let extracted_info := pyStrip model_output
    if extracted_info = "" then .error "Extraction returned empty content."
    else .ok ⟨url, markdown_content, extracted_info⟩

end App

namespace CLI

/-! Embedding of `src/main.py` (only where it differs from the streamlit
front-end in ways a claim depends on). -/

/-- The `extraction_prompt` literal of main.py (lines 60-76): a plain
triple-quoted literal with 4-space indentation, not stripped. -/
def EXTRACTION_PROMPT : String :=
  "\n    Analyze this immobilienscout24 listing and extract the following information in a structured format:\n    \n    - Title/Address\n    - Rent (Kaltmiete and Warmmiete if available)\n    - Size (square meters)\n    - Rooms\n    - Floor/Etage\n    - Available from (Bezugsfrei ab)\n    - Deposit (Kaution)\n    - Location/District\n    - Key features and amenities\n    - Landlord/Contact info if available\n    - Any requirements mentioned (income proof, etc.)\n    \n    Listing content:\n    "

/-- The user content of main.py's extraction call (line 87):
`extraction_prompt + markdown_content[:15000]`. -/
def extraction_user (markdown_content : String) : String :=
  EXTRACTION_PROMPT ++ pySlice 15000 markdown_content

/-- main.py's `extract_listing_info` (lines 38-100): empty markdown fails
(lines 54-55); the model output is stored as `extracted_info` with no
emptiness or whitespace check (lines 93-100). -/
def extract_listing_info (url markdown_content model_output : String) :
    Except String ListingInfo :=
  if markdown_content = "" then
    .error "Could not extract content from the listing"
  else
    .ok ⟨url, markdown_content, model_output⟩

end CLI

/-- A concrete extracted listing whose availability line states that no
move-in date is given (the `Absent` case of the move-in rule). -/
def listing0 : ListingInfo :=
  ⟨"https://www.immobilienscout24.de/expose/123456789",
   "# Exposé markdown",
   "Titel: 3-Zimmer-Wohnung in Schwabing. Kaltmiete: 1.800 Euro. Bezugsfrei ab: keine Angabe."⟩

/-- The same extracted facts as `listing0` under a different url and raw
markdown (used to exercise frame conditions). -/
def listing0b : ListingInfo :=
  ⟨"https://www.immobilienscout24.de/expose/987654321",
   "# a different scrape of the same flat",
   "Titel: 3-Zimmer-Wohnung in Schwabing. Kaltmiete: 1.800 Euro. Bezugsfrei ab: keine Angabe."⟩

/-- A long markdown input (15001 characters) for the truncation bound. -/
def longRaw : String := ⟨List.replicate 15001 'a'⟩

/-! General helper lemmas about substrings, decimal representations and the
stripped template. -/

theorem digitChar_isDigit : ∀ m, m < 10 → (Nat.digitChar m).isDigit = true := by decide

theorem toDigitsCore_chars :
    ∀ (fuel n : Nat) (acc : List Char), ∀ c ∈ Nat.toDigitsCore 10 fuel n acc,
      c ∈ acc ∨ c.isDigit = true := by
  intro fuel
  induction fuel with
  | zero =>
    intro n acc c hc
    simp only [Nat.toDigitsCore] at hc
    exact Or.inl hc
  | succ fuel ih =>
    intro n acc c hc
    simp only [Nat.toDigitsCore] at hc
    by_cases h : n / 10 = 0
    · rw [if_pos h] at hc
      rcases List.mem_cons.mp hc with h1 | h1
      · subst h1
        exact Or.inr (digitChar_isDigit _ (Nat.mod_lt _ (by norm_num)))
      · exact Or.inl h1
    · rw [if_neg h] at hc
      rcases ih _ _ _ hc with h1 | h1
      · rcases List.mem_cons.mp h1 with h2 | h2
        · subst h2
          exact Or.inr (digitChar_isDigit _ (Nat.mod_lt _ (by norm_num)))
        · exact Or.inl h2
      · exact Or.inr h1

theorem toDigitsCore_ne_nil :
    ∀ (fuel n : Nat) (acc : List Char), acc ≠ [] → Nat.toDigitsCore 10 fuel n acc ≠ [] := by
  intro fuel
  induction fuel with
  | zero =>
    intro n acc ha
    simp only [Nat.toDigitsCore]
    exact ha
  | succ fuel ih =>
    intro n acc ha
    simp only [Nat.toDigitsCore]
    by_cases h : n / 10 = 0
    · rw [if_pos h]
      simp
    · rw [if_neg h]
      exact ih _ _ (by simp)

theorem natRepr_chars (n : Nat) : ∀ c ∈ (Nat.repr n).data, c.isDigit = true := by
  intro c hc
  have h : (Nat.repr n).data = Nat.toDigits 10 n := rfl
  rw [h, Nat.toDigits] at hc
  rcases toDigitsCore_chars _ _ _ _ hc with h1 | h1
  · simp at h1
  · exact h1

theorem natRepr_ne_nil (n : Nat) : (Nat.repr n).data ≠ [] := by
  have h : (Nat.repr n).data = Nat.toDigits 10 n := rfl
  rw [h, Nat.toDigits]
  simp only [Nat.toDigitsCore]
  by_cases h2 : n / 10 = 0
  · rw [if_pos h2]
    simp
  · rw [if_neg h2]
    exact toDigitsCore_ne_nil _ _ _ (by simp)

theorem intStr_chars (i : Int) : ∀ c ∈ (toString i).data, c.isDigit = true ∨ c = '-' := by
  intro c hc
  have h : toString i = Int.repr i := rfl
  rw [h] at hc
  cases i with
  | ofNat m =>
    simp only [Int.repr] at hc
    exact Or.inl (natRepr_chars m c hc)
  | negSucc m =>
    simp only [Int.repr] at hc
    rw [String.data_append] at hc
    rcases List.mem_append.mp hc with h1 | h1
    · right
      simpa using h1
    · exact Or.inl (natRepr_chars _ c h1)

theorem intStr_ne_nil (i : Int) : (toString i).data ≠ [] := by
  have h : toString i = Int.repr i := rfl
  rw [h]
  cases i with
  | ofNat m =>
    simp only [Int.repr]
    exact natRepr_ne_nil m
  | negSucc m =>
    simp only [Int.repr]
    rw [String.data_append]
    simp

theorem incl_left {p a : List Char} (b : List Char) (h : p <:+: a) : p <:+: a ++ b :=
  h.trans ⟨[], b, rfl⟩

theorem incl_right {p b : List Char} (a : List Char) (h : p <:+: b) : p <:+: a ++ b :=
  h.trans ⟨a, [], by simp⟩

/-- Splitting lemma: an occurrence of `p` in `a ++ (m ++ b)` lies wholly in
`a` or wholly in `b` whenever no element of the separator `m` occurs in `p`. -/
theorem split_around {α : Type} {p m a b : List α} (hp : p ≠ []) (hm : m ≠ [])
    (hd : ∀ x ∈ m, x ∉ p) (h : p <:+: a ++ (m ++ b)) : p <:+: a ∨ p <:+: b := by
  obtain ⟨s, t, hst⟩ := h
  rw [List.append_assoc] at hst
  rcases List.append_eq_append_iff.mp hst with ⟨k, hk1, hk2⟩ | ⟨k, hk1, hk2⟩
  · rcases List.append_eq_append_iff.mp hk2 with ⟨j, hj1, hj2⟩ | ⟨j, hj1, hj2⟩
    · left
      exact ⟨s, j, by rw [List.append_assoc, hk1, hj1]⟩
    · rcases List.append_eq_append_iff.mp hj2 with ⟨i, hi1, hi2⟩ | ⟨i, hi1, hi2⟩
      · obtain ⟨x, hx⟩ := List.exists_mem_of_ne_nil m hm
        have hxp : x ∈ p := by
          rw [hj1, hi1]
          exact List.mem_append_right _ (List.mem_append_left _ hx)
        exact absurd hxp (hd x hx)
      · rcases eq_or_ne j [] with hj | hj
        · left
          subst hj
          rw [List.append_nil] at hj1
          exact ⟨s, [], by rw [List.append_nil, hk1, hj1]⟩
        · obtain ⟨x, hx⟩ := List.exists_mem_of_ne_nil j hj
          have hxp : x ∈ p := by
            rw [hj1]
            exact List.mem_append_right _ hx
          have hxm : x ∈ m := by
            rw [hi1]
            exact List.mem_append_left _ hx
          exact absurd hxp (hd x hxm)
  · rcases List.append_eq_append_iff.mp hk2 with ⟨j, hj1, hj2⟩ | ⟨j, hj1, hj2⟩
    · right
      exact ⟨j, t, by rw [List.append_assoc]; exact hj2.symm⟩
    · rcases List.append_eq_append_iff.mp hj2 with ⟨i, hi1, hi2⟩ | ⟨i, hi1, hi2⟩
      · obtain ⟨x, hx⟩ := List.exists_mem_of_ne_nil p hp
        have hxm : x ∈ m := by
          rw [hj1, hi1]
          exact List.mem_append_right _ (List.mem_append_left _ hx)
        exact absurd hx (hd x hxm)
      · rcases eq_or_ne j [] with hj | hj
        · right
          subst hj
          rw [List.nil_append] at hi1
          refine ⟨[], t, ?_⟩
          rw [List.nil_append, hi1]
          exact hi2.symm
        · obtain ⟨x, hx⟩ := List.exists_mem_of_ne_nil j hj
          have hxp : x ∈ p := by
            rw [hi1]
            exact List.mem_append_left _ hx
          have hxm : x ∈ m := by
            rw [hj1]
            exact List.mem_append_right _ hx
          exact absurd hxp (hd x hxm)

theorem rdropWhile_append_ne {q : Char → Bool} (l tl : List Char)
    (h : List.rdropWhile q tl ≠ []) :
    List.rdropWhile q (l ++ tl) = l ++ List.rdropWhile q tl := by
  rw [List.rdropWhile] at h ⊢
  rw [List.rdropWhile, List.reverse_append, List.dropWhile_append]
  have h2 : (List.dropWhile q tl.reverse).isEmpty = false := by
    rcases e : List.dropWhile q tl.reverse with _ | ⟨x, xs⟩
    · rw [e] at h
      simp at h
    · rfl
  simp only [h2, Bool.false_eq_true, if_false]
  rw [List.reverse_append, List.reverse_reverse]

theorem dropWhile_ws_newline (X : List Char) :
    List.dropWhile (fun c => c.isWhitespace) (['\n'] ++ X) =
      List.dropWhile (fun c => c.isWhitespace) X := by
  rw [List.singleton_append, List.dropWhile_cons, if_pos (by decide)]

theorem dropWhile_ws_head (X : List Char) :
    List.dropWhile (fun c => c.isWhitespace) (App.TPL_HEAD.data ++ X) =
      App.TPL_HEAD.data ++ X := by
  rw [List.dropWhile_append]
  rw [show List.dropWhile (fun c => c.isWhitespace) App.TPL_HEAD.data = App.TPL_HEAD.data from
        by decide]
  rw [show App.TPL_HEAD.data.isEmpty = false from by decide]
  simp

theorem pyStrip_data (s : String) :
    (pyStrip s).data =
      List.rdropWhile (fun c => c.isWhitespace)
        (List.dropWhile (fun c => c.isWhitespace) s.data) := rfl

/-- Normal form of the stripped reply template: the outer `.strip()` removes
exactly the template's leading and trailing newline. -/
theorem reply_user_data (listing : ListingInfo) (mw : Int) (iw : Bool) (prof : String)
    (c : Option String) :
    (App.reply_user listing mw iw prof c).data =
      (App.partA prof iw).data ++ ((toString mw).data ++ (App.partB.data ++ (['\n'] ++
        (listing.extracted_info.data ++ (['\n'] ++ ((App.additionalOf c).data ++
          (['\n'] ++ App.PART_TAIL.data))))))) := by
  simp only [App.reply_user, pyStrip_data]
  simp only [App.partA, App.partA_front, String.data_append, List.append_assoc]
  rw [dropWhile_ws_newline, dropWhile_ws_head]
  simp only [← List.append_assoc]
  rw [List.rdropWhile_concat, if_pos (by decide)]
  rw [rdropWhile_append_ne _ _ (by decide)]
  rw [show List.rdropWhile (fun c => c.isWhitespace) App.PART_TAIL.data = App.PART_TAIL.data from
        by decide]

/-- Any occurrence of a newline-free, digit-free pattern in the reply prompt
lies wholly inside one of its five building blocks: the fixed part before
`max_words`, the fixed part after it, the extracted listing text, the
additional-instructions block, or the closing line. -/
theorem reply_user_split (listing : ListingInfo) (mw : Int) (iw : Bool) (prof : String)
    (c : Option String) (pat : String) (hp : pat.data ≠ []) (hnl : '\n' ∉ pat.data)
    (hdig : ∀ ch ∈ pat.data, ¬(ch.isDigit = true ∨ ch = '-'))
    (h : strIncl (App.reply_user listing mw iw prof c) pat) :
    strIncl (App.partA prof iw) pat ∨ strIncl App.partB pat ∨
    strIncl listing.extracted_info pat ∨ strIncl (App.additionalOf c) pat ∨
    strIncl App.PART_TAIL pat := by
  simp only [strIncl] at h ⊢
  set p := pat.data with hpdef
  rw [reply_user_data] at h
  have hnlm : ∀ x ∈ ['\n'], x ∉ p := by
    intro x hx
    rw [List.mem_singleton] at hx
    subst hx
    exact hnl
  rcases split_around hp (intStr_ne_nil mw)
      (fun ch hch hcp => hdig ch hcp (intStr_chars mw ch hch)) h with h | h
  · exact Or.inl h
  rcases split_around hp (by simp) hnlm h with h | h
  · exact Or.inr (Or.inl h)
  rcases split_around hp (by simp) hnlm h with h | h
  · exact Or.inr (Or.inr (Or.inl h))
  rcases split_around hp (by simp) hnlm h with h | h
  · exact Or.inr (Or.inr (Or.inr (Or.inl h)))
  · exact Or.inr (Or.inr (Or.inr (Or.inr h)))

/-- An occurrence of a newline-free pattern in `additional_instructions` lies
in the fixed header or in the stripped custom prompt. -/
theorem additional_split (c : Option String) (pat : String) (hp : pat.data ≠ [])
    (hnl : '\n' ∉ pat.data) (h : strIncl (App.additionalOf c) pat) :
    strIncl App.ADD_HEADER_MAIN pat ∨ strIncl (pyStrip (c.getD "")) pat := by
  simp only [strIncl] at h ⊢
  set p := pat.data with hpdef
  simp only [App.additionalOf] at h
  by_cases he : pyStrip (c.getD "") = ""
  · rw [if_pos he] at h
    exact absurd (List.eq_nil_of_infix_nil h) hp
  · rw [if_neg he] at h
    simp only [String.data_append, List.append_assoc] at h
    have hnlm : ∀ x ∈ ['\n'], x ∉ p := by
      intro x hx
      rw [List.mem_singleton] at hx
      subst hx
      exact hnl
    exact split_around hp (by simp) hnlm h

/-- Lifting containment in the fixed front part to the whole reply prompt. -/
theorem incl_reply_of_partA (listing : ListingInfo) (mw : Int) (iw : Bool) (prof : String)
    (c : Option String) {pat : String} (h : strIncl (App.partA prof iw) pat) :
    strIncl (App.reply_user listing mw iw prof c) pat := by
  simp only [strIncl] at h ⊢
  rw [reply_user_data]
  exact incl_left _ h

/-- A newline-free, digit-free pattern that occurs in none of the five
building blocks does not occur in the reply prompt. -/
theorem not_incl_reply (listing : ListingInfo) (mw : Int) (iw : Bool) (prof : String)
    (c : Option String) (pat : String) (hp : pat.data ≠ []) (hnl : '\n' ∉ pat.data)
    (hdig : ∀ ch ∈ pat.data, ¬(ch.isDigit = true ∨ ch = '-'))
    (hA : ¬ strIncl (App.partA prof iw) pat) (hB : ¬ strIncl App.partB pat)
    (hH : ¬ strIncl App.ADD_HEADER_MAIN pat) (hT : ¬ strIncl App.PART_TAIL pat)
    (hext : ¬ strIncl listing.extracted_info pat)
    (hc : ¬ strIncl (pyStrip (c.getD "")) pat) :
    ¬ strIncl (App.reply_user listing mw iw prof c) pat := by
  intro h
  rcases reply_user_split listing mw iw prof c pat hp hnl hdig h with h | h | h | h | h
  · exact hA h
  · exact hB h
  · exact hext h
  · rcases additional_split c pat hp hnl h with h | h
    · exact hH h
    · exact hc h
  · exact hT h

/-! The claims. -/

/-- C1, counterexample: for a concrete listing whose extracted facts state that
no move-in date is given (the Absent case), the reply prompt nevertheless
contains the rule text of the Earlier branch and of the Later branch as well
as the Absent branch — the prompt never contains exactly one branch. -/
theorem C1_counterexample :
    strIncl (App.reply_user listing0 150 true "couple" none) (App.ruleEarlier "wir") ∧
    strIncl (App.reply_user listing0 150 true "couple" none) (App.ruleLater "wir") ∧
    strIncl (App.reply_user listing0 150 true "couple" none) App.ruleAbsent :=
  ⟨incl_reply_of_partA _ _ _ _ _ (by decide), incl_reply_of_partA _ _ _ _ _ (by decide),
   incl_reply_of_partA _ _ _ _ _ (by decide)⟩

/-- C1, amended: for every input (and either profile), the reply PromptSpec
contains the rule text of all three move-in-date branches; the three-way
selection is delegated to the downstream model, not performed by the code. -/
theorem C1_all_three_rules_present (listing : ListingInfo) (mw : Int) (iw : Bool)
    (prof : String) (c : Option String) (hprof : prof = "couple" ∨ prof = "single") :
    strIncl (App.reply_user listing mw iw prof c) (App.ruleEarlier (App.pronounOf prof)) ∧
    strIncl (App.reply_user listing mw iw prof c) (App.ruleLater (App.pronounOf prof)) ∧
    strIncl (App.reply_user listing mw iw prof c) App.ruleAbsent := by
  rcases hprof with h | h <;> subst h <;> cases iw <;>
    exact ⟨incl_reply_of_partA _ _ _ _ _ (by decide), incl_reply_of_partA _ _ _ _ _ (by decide),
           incl_reply_of_partA _ _ _ _ _ (by decide)⟩

/-- C1, witness: the amended theorem applied at a concrete input. -/
theorem C1_witness :
    ("single" = "couple" ∨ "single" = "single") ∧
    (strIncl (App.reply_user listing0 150 false "single" none)
        (App.ruleEarlier (App.pronounOf "single")) ∧
      strIncl (App.reply_user listing0 150 false "single" none)
        (App.ruleLater (App.pronounOf "single")) ∧
      strIncl (App.reply_user listing0 150 false "single" none) App.ruleAbsent) :=
  ⟨Or.inr rfl, C1_all_three_rules_present listing0 150 false "single" none (Or.inr rfl)⟩

/-- C2, counterexample: with `include_website = false` the user instructions
still carry the placeholder `"Skip this section"` for structure item 5 — the
disclosure section is stubbed, not entirely omitted — while the disclosure
paragraph text itself is indeed absent. -/
theorem C2_counterexample :
    strIncl (App.reply_user listing0 150 false "couple" none) "Skip this section" ∧
    ¬ strIncl (App.reply_user listing0 150 false "couple" none) App.WEBSITE_INFO :=
  ⟨incl_reply_of_partA _ _ _ _ _ (by decide), by decide⟩

/-- C2, amended: the disclosure paragraph appears verbatim iff
`include_website` is true (for inputs that do not themselves quote the
disclosure, witnessed by its marker `"lovable.app"`); when false no disclosure
content appears, but structure item 5 is stubbed with `"Skip this section"`
rather than omitted. -/
theorem C2_disclosure_iff (listing : ListingInfo) (mw : Int) (iw : Bool) (prof : String)
    (c : Option String) (hprof : prof = "couple" ∨ prof = "single")
    (hext : ¬ strIncl listing.extracted_info "lovable.app")
    (hc : ¬ strIncl (pyStrip (c.getD "")) "lovable.app") :
    (iw = true → strIncl (App.reply_user listing mw iw prof c) (App.websiteSectionOf prof iw)) ∧
    (iw = false →
      ¬ strIncl (App.reply_user listing mw iw prof c) App.WEBSITE_INFO ∧
      ¬ strIncl (App.reply_user listing mw iw prof c) App.WEBSITE_INFO_SINGLE ∧
      strIncl (App.reply_user listing mw iw prof c) "Skip this section") := by
  constructor
  · intro h
    subst h
    rcases hprof with h | h <;> subst h <;> exact incl_reply_of_partA _ _ _ _ _ (by decide)
  · intro h
    subst h
    have hno : ¬ strIncl (App.reply_user listing mw false prof c) "lovable.app" := by
      rcases hprof with h | h <;> subst h <;>
        exact not_incl_reply _ _ _ _ _ _ (by decide) (by decide) (by decide) (by decide)
          (by decide) (by decide) (by decide) hext hc
    refine ⟨?_, ?_, ?_⟩
    · intro hw
      have hlov : strIncl App.WEBSITE_INFO "lovable.app" := by decide
      exact hno (List.IsInfix.trans hlov hw)
    · intro hw
      have hlov : strIncl App.WEBSITE_INFO_SINGLE "lovable.app" := by decide
      exact hno (List.IsInfix.trans hlov hw)
    · rcases hprof with h | h <;> subst h <;> exact incl_reply_of_partA _ _ _ _ _ (by decide)

/-- C2, witness: the amended theorem applied at a concrete input with the
disclosure enabled. -/
theorem C2_witness :
    (¬ strIncl listing0.extracted_info "lovable.app" ∧
      ¬ strIncl (pyStrip ((none : Option String).getD "")) "lovable.app") ∧
    strIncl (App.reply_user listing0 150 true "couple" none)
      (App.websiteSectionOf "couple" true) :=
  ⟨⟨by decide, by decide⟩,
   (C2_disclosure_iff listing0 150 true "couple" none (Or.inl rfl) (by decide) (by decide)).1 rfl⟩

/-- C3: the PromptSpec construction is a pure function of its inputs — two
calls on identical inputs return identical results (the embedding takes all
effectful boundaries as explicit arguments, so there is no hidden state). -/
theorem C3_pure_deterministic (l1 l2 : ListingInfo) (mw1 mw2 : Int) (iw1 iw2 : Bool)
    (p1 p2 : String) (c1 c2 : Option String) (hl : l1 = l2) (hmw : mw1 = mw2)
    (hiw : iw1 = iw2) (hp : p1 = p2) (hc : c1 = c2) :
    App.generate_reply l1 mw1 iw1 p1 c1 = App.generate_reply l2 mw2 iw2 p2 c2 ∧
    App.reply_user l1 mw1 iw1 p1 c1 = App.reply_user l2 mw2 iw2 p2 c2 := by
  subst hl
  subst hmw
  subst hiw
  subst hp
  subst hc
  exact ⟨rfl, rfl⟩

/-- C3, witness: determinism at a concrete input. -/
theorem C3_witness :
    listing0 = listing0 ∧
    (App.generate_reply listing0 150 true "couple" none =
        App.generate_reply listing0 150 true "couple" none ∧
      App.reply_user listing0 150 true "couple" none =
        App.reply_user listing0 150 true "couple" none) :=
  ⟨rfl, C3_pure_deterministic listing0 listing0 150 150 true true "couple" "couple" none none
    rfl rfl rfl rfl rfl⟩

/-- C4, counterexample: `max_words = 0` does not raise any error — the call
succeeds and returns a PromptSpec. -/
theorem C4_counterexample :
    App.generate_reply listing0 0 true "couple" none =
      .ok ⟨App.REPLY_SYSTEM, App.reply_user listing0 0 true "couple" none⟩ := by
  simp [App.generate_reply]

/-- C4, amended: `generate_reply` performs no validation of `max_words`; for
any `max_words ≤ 0` (and a valid profile) it still succeeds, embedding the
nonpositive bound verbatim in the `Maximum {max_words} words total` line. -/
theorem C4_no_maxwords_validation (listing : ListingInfo) (mw : Int) (iw : Bool)
    (prof : String) (c : Option String) (hprof : prof = "couple" ∨ prof = "single")
    (_hmw : mw ≤ 0) :
    App.generate_reply listing mw iw prof c =
      .ok ⟨App.REPLY_SYSTEM, App.reply_user listing mw iw prof c⟩ ∧
    strIncl (App.reply_user listing mw iw prof c)
      ("Maximum " ++ toString mw ++ " words total") := by
  constructor
  · simp only [App.generate_reply]
    rw [if_neg (not_not_intro hprof)]
  · simp only [strIncl]
    rw [reply_user_data]
    simp only [App.partA, App.partB, String.data_append, List.append_assoc]
    refine ⟨(App.partA_front prof iw).data,
      App.partB_rest.data ++ (['\n'] ++ (listing.extracted_info.data ++ (['\n'] ++
        ((App.additionalOf c).data ++ (['\n'] ++ App.PART_TAIL.data))))), ?_⟩
    simp only [List.append_assoc]

/-- C4, witness: the amended theorem applied at `max_words = 0`. -/
theorem C4_witness :
    (("couple" = "couple" ∨ "couple" = "single") ∧ (0 : Int) ≤ 0) ∧
    (App.generate_reply listing0 0 true "couple" none =
        .ok ⟨App.REPLY_SYSTEM, App.reply_user listing0 0 true "couple" none⟩ ∧
      strIncl (App.reply_user listing0 0 true "couple" none)
        ("Maximum " ++ toString (0 : Int) ++ " words total")) :=
  ⟨⟨Or.inl rfl, le_refl 0⟩,
   C4_no_maxwords_validation listing0 0 true "couple" none (Or.inl rfl) (le_refl 0)⟩

/-- C5: `generate_reply` fails with the invalid-profile error exactly when the
profile id is neither `"couple"` nor `"single"`, and succeeds otherwise. -/
theorem C5_profile_validation (listing : ListingInfo) (mw : Int) (iw : Bool) (prof : String)
    (c : Option String) :
    (¬(prof = "couple" ∨ prof = "single") →
      App.generate_reply listing mw iw prof c =
        .error "Invalid applicant_profile. Use 'couple' or 'single'.") ∧
    ((prof = "couple" ∨ prof = "single") →
      App.generate_reply listing mw iw prof c =
        .ok ⟨App.REPLY_SYSTEM, App.reply_user listing mw iw prof c⟩) := by
  constructor
  · intro h
    simp only [App.generate_reply]
    rw [if_pos h]
  · intro h
    simp only [App.generate_reply]
    rw [if_neg (not_not_intro h)]

/-- C5, witness: `"unknown"` is rejected, `"single"` is accepted. -/
theorem C5_witness :
    (¬("unknown" = "couple" ∨ "unknown" = "single") ∧
      App.generate_reply listing0 150 true "unknown" none =
        .error "Invalid applicant_profile. Use 'couple' or 'single'.") ∧
    App.generate_reply listing0 150 true "single" none =
      .ok ⟨App.REPLY_SYSTEM, App.reply_user listing0 150 true "single" none⟩ :=
  ⟨⟨by decide, (C5_profile_validation listing0 150 true "unknown" none).1 (by decide)⟩,
   (C5_profile_validation listing0 150 true "single" none).2 (Or.inr rfl)⟩

/-- C6: both extraction prompts embed exactly the 15000-character prefix of the
raw content: the embedded portion has length `min (length rawContent) 15000`,
so a longer input is cut to exactly 15000 characters and a shorter one is
embedded in full. -/
theorem C6_truncation (raw : String) :
    App.extraction_user raw = App.EXTRACTION_PROMPT ++ "\n\n" ++ pySlice 15000 raw ∧
    CLI.extraction_user raw = CLI.EXTRACTION_PROMPT ++ pySlice 15000 raw ∧
    (pySlice 15000 raw).length = min 15000 raw.length ∧
    (15000 < raw.length → (pySlice 15000 raw).length = 15000) ∧
    (raw.length ≤ 15000 → pySlice 15000 raw = raw) := by
  have hlen : (pySlice 15000 raw).length = min 15000 raw.length := by
    show (raw.data.take 15000).length = min 15000 raw.data.length
    rw [List.length_take]
  refine ⟨rfl, rfl, hlen, ?_, ?_⟩
  · intro h
    have h2 : 15000 < raw.data.length := h
    rw [hlen]
    show min 15000 raw.data.length = 15000
    omega
  · intro h
    have h2 : raw.data.length ≤ 15000 := h
    show String.mk (raw.data.take 15000) = raw
    rw [List.take_of_length_le h2]

/-- C6, witness: a 15001-character input is cut to exactly 15000 characters,
and a short input is embedded in full. -/
theorem C6_witness :
    (15000 < longRaw.length ∧ (pySlice 15000 longRaw).length = 15000) ∧
    ("kurz".length ≤ 15000 ∧ pySlice 15000 "kurz" = "kurz") := by
  have hlong : 15000 < longRaw.length := by
    show 15000 < (List.replicate 15001 'a').length
    rw [List.length_replicate]
    omega
  have hshort : ("kurz" : String).length ≤ 15000 := by decide
  exact ⟨⟨hlong, (C6_truncation longRaw).2.2.2.1 hlong⟩,
         ⟨hshort, (C6_truncation "kurz").2.2.2.2 hshort⟩⟩

/-- C7: with the single profile the reply prompt carries the single biography,
the single sign-off and the single pronoun slot `"; adapt to ich)"`, and — for
inputs that do not themselves quote couple material ("wir", "Nils") — none of
the couple biography, couple sign-off or couple pronoun occurs in it. -/
theorem C7_single_profile_content (listing : ListingInfo) (mw : Int) (iw : Bool)
    (c : Option String)
    (hext1 : ¬ strIncl listing.extracted_info "wir")
    (hext2 : ¬ strIncl listing.extracted_info "Nils")
    (hc1 : ¬ strIncl (pyStrip (c.getD "")) "wir")
    (hc2 : ¬ strIncl (pyStrip (c.getD "")) "Nils") :
    strIncl (App.reply_user listing mw iw "single" c) App.APPLICANT_INFO_SINGLE ∧
    strIncl (App.reply_user listing mw iw "single" c) App.SIGN_OFF_SINGLE ∧
    strIncl (App.reply_user listing mw iw "single" c) "; adapt to ich)" ∧
    ¬ strIncl (App.reply_user listing mw iw "single" c) App.APPLICANT_INFO_COUPLE ∧
    ¬ strIncl (App.reply_user listing mw iw "single" c) App.SIGN_OFF_COUPLE ∧
    ¬ strIncl (App.reply_user listing mw iw "single" c) "wir" := by
  have hNils : ¬ strIncl (App.reply_user listing mw iw "single" c) "Nils" := by
    cases iw <;>
      exact not_incl_reply _ _ _ _ _ _ (by decide) (by decide) (by decide) (by decide)
        (by decide) (by decide) (by decide) hext2 hc2
  have hwir : ¬ strIncl (App.reply_user listing mw iw "single" c) "wir" := by
    cases iw <;>
      exact not_incl_reply _ _ _ _ _ _ (by decide) (by decide) (by decide) (by decide)
        (by decide) (by decide) (by decide) hext1 hc1
  refine ⟨?_, ?_, ?_, ?_, ?_, hwir⟩
  · cases iw <;> exact incl_reply_of_partA _ _ _ _ _ (by decide)
  · cases iw <;> exact incl_reply_of_partA _ _ _ _ _ (by decide)
  · cases iw <;> exact incl_reply_of_partA _ _ _ _ _ (by decide)
  · intro hbio
    have hn : strIncl App.APPLICANT_INFO_COUPLE "Nils" := by decide
    exact hNils (List.IsInfix.trans hn hbio)
  · intro hso
    have hn : strIncl App.SIGN_OFF_COUPLE "Nils" := by decide
    exact hNils (List.IsInfix.trans hn hso)

/-- C7, witness: the theorem applied at a concrete clean input. -/
theorem C7_witness :
    (¬ strIncl listing0.extracted_info "wir" ∧ ¬ strIncl listing0.extracted_info "Nils" ∧
      ¬ strIncl (pyStrip ((none : Option String).getD "")) "wir" ∧
      ¬ strIncl (pyStrip ((none : Option String).getD "")) "Nils") ∧
    (strIncl (App.reply_user listing0 150 true "single" none) App.APPLICANT_INFO_SINGLE ∧
      strIncl (App.reply_user listing0 150 true "single" none) App.SIGN_OFF_SINGLE ∧
      strIncl (App.reply_user listing0 150 true "single" none) "; adapt to ich)" ∧
      ¬ strIncl (App.reply_user listing0 150 true "single" none) App.APPLICANT_INFO_COUPLE ∧
      ¬ strIncl (App.reply_user listing0 150 true "single" none) App.SIGN_OFF_COUPLE ∧
      ¬ strIncl (App.reply_user listing0 150 true "single" none) "wir") :=
  ⟨⟨by decide, by decide, by decide, by decide⟩,
   C7_single_profile_content listing0 150 true none (by decide) (by decide) (by decide)
     (by decide)⟩

/-- C8, counterexample: main.py's `extract_listing_info` returns the record
with an all-whitespace `extracted_info` instead of failing, while the
streamlit variant fails on the same input. -/
theorem C8_counterexample :
    CLI.extract_listing_info "https://www.immobilienscout24.de/expose/1" "# md" "   " =
      .ok ⟨"https://www.immobilienscout24.de/expose/1", "# md", "   "⟩ ∧
    App.extract_listing_info "https://www.immobilienscout24.de/expose/1" "# md" "   " =
      .error "Extraction returned empty content." := by
  constructor
  · simp [CLI.extract_listing_info]
  · simp [App.extract_listing_info, pyStrip]

/-- C8, amended: the streamlit `extract_listing_info` fails with the
empty-extraction error exactly when the model output strips to empty, and
returns the stripped summary otherwise; the CLI variant in main.py performs no
such check and returns the output as-is. -/
theorem C8_empty_extraction (url md gen : String) (hmd : md ≠ "") :
    (pyStrip gen = "" →
      App.extract_listing_info url md gen = .error "Extraction returned empty content.") ∧
    (pyStrip gen ≠ "" →
      App.extract_listing_info url md gen = .ok ⟨url, md, pyStrip gen⟩) ∧
    CLI.extract_listing_info url md gen = .ok ⟨url, md, gen⟩ := by
  refine ⟨?_, ?_, ?_⟩
  · intro h
    simp [App.extract_listing_info, hmd, h]
  · intro h
    simp [App.extract_listing_info, hmd, h]
  · simp [CLI.extract_listing_info, hmd]

/-- C8, witness: the amended theorem applied at whitespace-only and at
non-empty model output. -/
theorem C8_witness :
    ("# md" ≠ "" ∧ pyStrip " \n " = "" ∧ pyStrip "Titel: Wohnung" ≠ "") ∧
    (App.extract_listing_info "u" "# md" " \n " =
        .error "Extraction returned empty content." ∧
      App.extract_listing_info "u" "# md" "Titel: Wohnung" =
        .ok ⟨"u", "# md", pyStrip "Titel: Wohnung"⟩ ∧
      CLI.extract_listing_info "u" "# md" " \n " = .ok ⟨"u", "# md", " \n "⟩) :=
  ⟨⟨by decide, by decide, by decide⟩,
   ⟨(C8_empty_extraction "u" "# md" " \n " (by decide)).1 (by decide),
    (C8_empty_extraction "u" "# md" "Titel: Wohnung" (by decide)).2.1 (by decide),
    (C8_empty_extraction "u" "# md" " \n " (by decide)).2.2⟩⟩

/-- C9: a custom prompt that strips to empty (absent, empty or whitespace-only)
adds nothing — the prompt equals the no-custom-prompt output and the
additional-instructions header is nowhere in it; a nonempty one is appended
under the header whose text subordinates it to the structure and rules. -/
theorem C9_custom_instructions (listing : ListingInfo) (mw : Int) (iw : Bool) (prof : String)
    (c : Option String) (hprof : prof = "couple" ∨ prof = "single")
    (hext : ¬ strIncl listing.extracted_info "ADDITIONAL USER INSTRUCTIONS") :
    (pyStrip (c.getD "") = "" →
      App.reply_user listing mw iw prof c = App.reply_user listing mw iw prof none ∧
      ¬ strIncl (App.reply_user listing mw iw prof c) "ADDITIONAL USER INSTRUCTIONS") ∧
    (pyStrip (c.getD "") ≠ "" →
      strIncl (App.reply_user listing mw iw prof c)
        (App.ADD_HEADER_MAIN ++ "\n" ++ pyStrip (c.getD ""))) := by
  constructor
  · intro he
    have hadd : App.additionalOf c = "" := by
      simp [App.additionalOf, he]
    have haddn : App.additionalOf none = "" := by decide
    constructor
    · simp only [App.reply_user]
      rw [hadd, haddn]
    · intro hocc
      rcases reply_user_split listing mw iw prof c "ADDITIONAL USER INSTRUCTIONS" (by decide)
        (by decide) (by decide) hocc with h | h | h | h | h
      · rcases hprof with hh | hh <;> subst hh <;> cases iw <;> exact absurd h (by decide)
      · exact absurd h (by decide)
      · exact hext h
      · rw [hadd] at h
        exact absurd (List.eq_nil_of_infix_nil h) (by decide)
      · exact absurd h (by decide)
  · intro hne
    have hadd : App.additionalOf c = App.ADD_HEADER_MAIN ++ "\n" ++ pyStrip (c.getD "") := by
      simp [App.additionalOf, hne]
    simp only [strIncl]
    rw [reply_user_data, hadd]
    refine ⟨(App.partA prof iw).data ++ ((toString mw).data ++ (App.partB.data ++ (['\n'] ++
      (listing.extracted_info.data ++ ['\n'])))), ['\n'] ++ App.PART_TAIL.data, ?_⟩
    simp only [String.data_append, List.append_assoc]

/-- C9, witness: the theorem applied with a whitespace-only and with a real
custom prompt. -/
theorem C9_witness :
    (("couple" = "couple" ∨ "couple" = "single") ∧
      ¬ strIncl listing0.extracted_info "ADDITIONAL USER INSTRUCTIONS") ∧
    (App.reply_user listing0 150 true "couple" (some "   ") =
        App.reply_user listing0 150 true "couple" none ∧
      ¬ strIncl (App.reply_user listing0 150 true "couple" (some "   "))
        "ADDITIONAL USER INSTRUCTIONS") ∧
    strIncl (App.reply_user listing0 150 true "couple" (some " bitte etwas formeller "))
      (App.ADD_HEADER_MAIN ++ "\n" ++ pyStrip ((some " bitte etwas formeller " :
        Option String).getD "")) :=
  ⟨⟨Or.inl rfl, by decide⟩,
   (C9_custom_instructions listing0 150 true "couple" (some "   ") (Or.inl rfl)
      (by decide)).1 (by decide),
   (C9_custom_instructions listing0 150 true "couple" (some " bitte etwas formeller ")
      (Or.inl rfl) (by decide)).2 (by decide)⟩

/-- C10: the reply PromptSpec depends on the listing record only through its
`extracted_info` field — equal extracted facts give byte-identical output
whatever the url and raw markdown. -/
theorem C10_depends_only_on_extracted_info (l1 l2 : ListingInfo) (mw : Int) (iw : Bool)
    (prof : String) (c : Option String) (h : l1.extracted_info = l2.extracted_info) :
    App.generate_reply l1 mw iw prof c = App.generate_reply l2 mw iw prof c := by
  simp only [App.generate_reply, App.reply_user, h]

/-- C10, witness: two listings sharing facts but differing in url and raw
markdown produce the same result. -/
theorem C10_witness :
    listing0.extracted_info = listing0b.extracted_info ∧
    App.generate_reply listing0 150 true "couple" none =
      App.generate_reply listing0b 150 true "couple" none :=
  ⟨rfl, C10_depends_only_on_extracted_info listing0 listing0b 150 true "couple" none rfl⟩

end Wohnungssuche
